import Mathlib

/-!
# Verification of the `api_error` error-container library

Shallow embedding of `src/lib.rs` (the `DetailedError` container, its
metadata, its one-shot structured-logging lifecycle, and the construction
macros `e!`, `w!` and `detailed_error!`).

Modelling choices:
* The structured-log emission (`tracing::event!`) is modelled by returning a
  list of `LogRecord` values alongside the (possibly mutated) container:
  stateful Rust code becomes explicit state passing.
* A private error (`P : StdError + Send + Sync`) and a context value
  (`C : Display`) enter the container only through their display strings, so
  both are modelled as `String`.
* The public error type `Pub` (bounds `ToResponse + Debug`) and the category
  type `Cat` (bound `Display`) stay polymorphic; their trait methods are
  passed as explicit functions (`dbgPub`, `dispCat`, `toResp`).
* `HashMap<String, String>` is modelled as an association list
  `List (String × String)`; the claims only use emptiness and whole-map
  equality, for which insertion order is irrelevant per the spec.
-/

namespace ApiError

/-- The five `tracing::Level` severity values. -/
inductive Level : Type where
  | ERROR
  | WARN
  | INFO
  | DEBUG
  | TRACE
deriving DecidableEq, Repr

/-- Modelled from the spec: the Cause Chain collaborator (`anyhow::Error` /
`eyre::Report`, an external dependency not part of this repository's source).
Per the spec boundary contract it is an ordered, immutable sequence of causes
(display strings) in outer-to-inner order with at least one entry (the
original failure); wrapping an error makes it the root, and attaching a
context makes the context the newly outermost entry. The chain iterates
outer-to-inner and the head is used for display. -/
structure InnerError : Type where
  head : String
  rest : List String
deriving DecidableEq, Repr

/-- `anyhow::Error::new` / `eyre::Report::new`: wrap a private error
(identified by its display string) as the sole cause of a fresh chain. -/
def InnerError.new (display : String) : InnerError :=
  ⟨display, []⟩

/-- `.context(ctx)` / `.wrap_err(ctx)`: the context becomes the newly
outermost entry of the chain. -/
def InnerError.context (e : InnerError) (ctx : String) : InnerError :=
  ⟨ctx, e.head :: e.rest⟩

/-- `error.chain()`: every cause's display string, outer-to-inner. -/
def InnerError.chain (e : InnerError) : List String :=
  e.head :: e.rest

/-- `Display for anyhow::Error`: the outermost cause's display string. -/
def InnerError.display (e : InnerError) : String :=
  e.head

/-- `anyhow::Error::root_cause`: the innermost (last) entry of the chain. -/
def InnerError.root_cause (e : InnerError) : String :=
  e.rest.getLastD e.head

/-- The `Meta<C>` struct of `src/lib.rs` (fields, file, module, line, level,
category, has_logged). -/
structure Meta (Cat : Type) : Type where
  fields : List (String × String)
  file : String
  module : String
  line : Nat
  level : Level
  category : Cat
  has_logged : Bool

/-- The `DetailedError<Pub, Cat>` struct of `src/lib.rs`. The Rust field
`private` is spelled `private_` because `private` is a Lean keyword. -/
structure DetailedError (Pub Cat : Type) : Type where
  private_ : InnerError
  public : Pub
  meta : Meta Cat

/-- One structured diagnostic record as emitted by `DetailedError::log`
(the attributes of the `tracing` event, plus the event's severity level and
primary message). `additional_context` is `none` when the attribute is
omitted from the emission shape. -/
structure LogRecord : Type where
  level : Level
  errors : List String
  public_error : String
  category : String
  additional_context : Option (List (String × String))
  file : String
  line : Int
  module : String
  message : String
deriving DecidableEq, Repr

variable {Pub Cat R : Type}

/-- `DetailedError::log` (src/lib.rs lines 233–356): if `has_logged`, return
immediately having emitted nothing; otherwise build `errors` from the cause
chain skipping the first entry, then select one of the ten severity-specific
emission shapes (five levels × has_fields), emit exactly that record, and set
`has_logged`. Emission is modelled by the returned record list; `line` is
cast `u32 → i64` as in `%meta.line as i64`. -/
def DetailedError.log (dbgPub : Pub → String) (dispCat : Cat → String)
    (e : DetailedError Pub Cat) : DetailedError Pub Cat × List LogRecord :=
  if e.meta.has_logged then (e, [])
  else
    let errors : List String := e.private_.chain.drop 1
    let has_fields : Bool := !e.meta.fields.isEmpty
    let record : LogRecord :=
      match e.meta.level with
      | Level.ERROR =>
        if has_fields then
          { level := Level.ERROR, errors := errors,
            public_error := dbgPub e.public,
            category := dispCat e.meta.category,
            additional_context := some e.meta.fields,
            file := e.meta.file, line := (e.meta.line : Int),
            module := e.meta.module, message := e.private_.display }
        else
          { level := Level.ERROR, errors := errors,
            public_error := dbgPub e.public,
            category := dispCat e.meta.category,
            additional_context := none,
            file := e.meta.file, line := (e.meta.line : Int),
            module := e.meta.module, message := e.private_.display }
      | Level.WARN =>
        if has_fields then
          { level := Level.WARN, errors := errors,
            public_error := dbgPub e.public,
            category := dispCat e.meta.category,
            additional_context := some e.meta.fields,
            file := e.meta.file, line := (e.meta.line : Int),
            module := e.meta.module, message := e.private_.display }
        else
          { level := Level.WARN, errors := errors,
            category := dispCat e.meta.category,
            public_error := dbgPub e.public,
            additional_context := none,
            file := e.meta.file, line := (e.meta.line : Int),
            module := e.meta.module, message := e.private_.display }
      | Level.INFO =>
        if has_fields then
          { level := Level.INFO, errors := errors,
            public_error := dbgPub e.public,
            category := dispCat e.meta.category,
            additional_context := some e.meta.fields,
            file := e.meta.file, line := (e.meta.line : Int),
            module := e.meta.module, message := e.private_.display }
        else
          { level := Level.INFO, errors := errors,
            public_error := dbgPub e.public,
            category := dispCat e.meta.category,
            additional_context := none,
            file := e.meta.file, line := (e.meta.line : Int),
            module := e.meta.module, message := e.private_.display }
      | Level.DEBUG =>
        if has_fields then
          { level := Level.DEBUG, errors := errors,
            public_error := dbgPub e.public,
            category := dispCat e.meta.category,
            additional_context := some e.meta.fields,
            file := e.meta.file, line := (e.meta.line : Int),
            module := e.meta.module, message := e.private_.display }
        else
          { level := Level.DEBUG, errors := errors,
            public_error := dbgPub e.public,
            category := dispCat e.meta.category,
            additional_context := none,
            file := e.meta.file, line := (e.meta.line : Int),
            module := e.meta.module, message := e.private_.display }
      | Level.TRACE =>
        if has_fields then
          { level := Level.TRACE, errors := errors,
            public_error := dbgPub e.public,
            category := dispCat e.meta.category,
            additional_context := some e.meta.fields,
            file := e.meta.file, line := (e.meta.line : Int),
            module := e.meta.module, message := e.private_.display }
        else
          { level := Level.TRACE, errors := errors,
            public_error := dbgPub e.public,
            category := dispCat e.meta.category,
            additional_context := none,
            file := e.meta.file, line := (e.meta.line : Int),
            module := e.meta.module, message := e.private_.display }
    ({ e with meta := { e.meta with has_logged := true } }, [record])

/-- `DetailedError::new_with_tracing` (src/lib.rs lines 180–222): build the
`Meta` with `has_logged := false`, wrap the private error into the cause
chain attaching the context as the outermost entry when present, assemble the
container, then immediately call `log` and return its result (container plus
the records it emitted before the constructor returned). -/
def DetailedError.new_with_tracing (dbgPub : Pub → String)
    (dispCat : Cat → String) (priv_err : String) (public : Pub)
    (context : Option String) (category : Cat) (level : Level)
    (file : String) (line : Nat) (module : String)
    (fields : List (String × String)) :
    DetailedError Pub Cat × List LogRecord :=
  let meta : Meta Cat :=
    { fields := fields, file := file, module := module, line := line,
      level := level, category := category, has_logged := false }
  let priv_chain : InnerError :=
    match context with
    | some ctx => (InnerError.new priv_err).context ctx
    | none => InnerError.new priv_err
  let err : DetailedError Pub Cat :=
    { public := public, private_ := priv_chain, meta := meta }
  err.log dbgPub dispCat

/-- `DetailedError::new` (src/lib.rs lines 156–177): delegate to
`new_with_tracing` with an empty fields map. -/
def DetailedError.new (dbgPub : Pub → String) (dispCat : Cat → String)
    (priv_err : String) (public : Pub) (context : Option String)
    (category : Cat) (level : Level) (file : String) (line : Nat)
    (module : String) : DetailedError Pub Cat × List LogRecord :=
  DetailedError.new_with_tracing dbgPub dispCat priv_err public context
    category level file line module []

/-- `DetailedError::to_response`: delegate to the public value's
`ToResponse::to_response`. -/
def DetailedError.to_response (toResp : Pub → R)
    (e : DetailedError Pub Cat) : R :=
  toResp e.public

/-- `DetailedError::into_inner`: consume the container, yielding the owned
cause chain and public value; the metadata is dropped. -/
def DetailedError.into_inner (e : DetailedError Pub Cat) :
    InnerError × Pub :=
  (e.private_, e.public)

/-- `impl Display for DetailedError`: `write!(f, "{}", self.private)`, i.e.
the cause chain's display form (its outermost entry). -/
def DetailedError.displayStr (e : DetailedError Pub Cat) : String :=
  e.private_.display

/-- `impl Debug for DetailedError`: `write!(f, "{}", self.meta.category)`,
i.e. the category's display form. -/
def DetailedError.debugStr (dispCat : Cat → String)
    (e : DetailedError Pub Cat) : String :=
  dispCat e.meta.category

/-- `detailed_error!($lvl, $private, $public, $category)`: the no-context
arm expands to `DetailedError::new` with `None` context. -/
def detailed_error_noctx (dbgPub : Pub → String) (dispCat : Cat → String)
    (lvl : Level) (priv_err : String) (public : Pub) (category : Cat)
    (file : String) (line : Nat) (module : String) :
    DetailedError Pub Cat × List LogRecord :=
  DetailedError.new dbgPub dispCat priv_err public none category lvl
    file line module

/-- `detailed_error!($lvl, $private, $public, $category, $ctx)`: the
context arm expands to `DetailedError::new` with `Some($ctx)`. -/
def detailed_error_ctx (dbgPub : Pub → String) (dispCat : Cat → String)
    (lvl : Level) (priv_err : String) (public : Pub) (category : Cat)
    (ctx : String) (file : String) (line : Nat) (module : String) :
    DetailedError Pub Cat × List LogRecord :=
  DetailedError.new dbgPub dispCat priv_err public (some ctx) category lvl
    file line module

/-- `detailed_error!($lvl, …, $ctx, $($k => $v),*)`: the fields arm collects
the pairs into a map and expands to `DetailedError::new_with_tracing`. -/
def detailed_error_fields (dbgPub : Pub → String) (dispCat : Cat → String)
    (lvl : Level) (priv_err : String) (public : Pub) (category : Cat)
    (ctx : String) (fields : List (String × String)) (file : String)
    (line : Nat) (module : String) :
    DetailedError Pub Cat × List LogRecord :=
  DetailedError.new_with_tracing dbgPub dispCat priv_err public (some ctx)
    category lvl file line module fields

/-- `e!($private, $public, $category)` =
`detailed_error!(Level::ERROR, $private, $public, $category)`. -/
def e_short3 (dbgPub : Pub → String) (dispCat : Cat → String)
    (priv_err : String) (public : Pub) (arg3 : Cat) (file : String)
    (line : Nat) (module : String) :
    DetailedError Pub Cat × List LogRecord :=
  detailed_error_noctx dbgPub dispCat Level.ERROR priv_err public arg3
    file line module

/-- `e!($private, $public, $category, $ctx)` =
`detailed_error!(Level::ERROR, $private, $public, $category, $ctx)`:
the third argument is the category, the fourth the context. -/
def e_short4 (dbgPub : Pub → String) (dispCat : Cat → String)
    (priv_err : String) (public : Pub) (arg3 : Cat) (arg4 : String)
    (file : String) (line : Nat) (module : String) :
    DetailedError Pub Cat × List LogRecord :=
  detailed_error_ctx dbgPub dispCat Level.ERROR priv_err public arg3 arg4
    file line module

/-- `w!($private, $public, $category)` =
`detailed_error!(Level::WARN, $private, $public, $category)`. -/
def w_short3 (dbgPub : Pub → String) (dispCat : Cat → String)
    (priv_err : String) (public : Pub) (arg3 : Cat) (file : String)
    (line : Nat) (module : String) :
    DetailedError Pub Cat × List LogRecord :=
  detailed_error_noctx dbgPub dispCat Level.WARN priv_err public arg3
    file line module

/-- `w!($private, $public, $ctx, $category)` =
`detailed_error!(Level::WARN, $private, $public, $category, $ctx)`:
the pattern names its third argument `$ctx` and its fourth `$category`, so —
unlike `e!` — the third argument becomes the context and the fourth the
category. -/
def w_short4 (dbgPub : Pub → String) (dispCat : Cat → String)
    (priv_err : String) (public : Pub) (arg3 : String) (arg4 : Cat)
    (file : String) (line : Nat) (module : String) :
    DetailedError Pub Cat × List LogRecord :=
  detailed_error_ctx dbgPub dispCat Level.WARN priv_err public arg4 arg3
    file line module

/-- The cause chain built by the constructor: the private error wrapped as
root, with the context as the outermost entry when present. -/
def wrapChain (priv_err : String) (context : Option String) : InnerError :=
  match context with
  | some ctx => (InnerError.new priv_err).context ctx
  | none => InnerError.new priv_err

/-- Every observable component of a container other than its severity level,
used to compare the containers built by different macros. -/
def containerSansLevel (e : DetailedError Pub Cat) :
    InnerError × Pub × List (String × String) × String × String × Nat ×
      Cat × Bool :=
  (e.private_, e.public, e.meta.fields, e.meta.file, e.meta.module,
   e.meta.line, e.meta.category, e.meta.has_logged)

/-- Every attribute of an emitted record other than its severity level. -/
def recordSansLevel (r : LogRecord) :
    List String × String × String × Option (List (String × String)) ×
      String × Int × String × String :=
  (r.errors, r.public_error, r.category, r.additional_context, r.file,
   r.line, r.module, r.message)

/-- A sample not-yet-logged container used to witness lemmas about `log`. -/
def sampleErr : DetailedError String String :=
  { private_ := ⟨"c", ["p"]⟩, public := "PUB",
    meta := { fields := [], file := "f", module := "m", line := 3,
              level := Level.WARN, category := "CAT",
              has_logged := false } }

/-- A sample container, used as a witness input. -/
def sampleA : DetailedError String String :=
  { private_ := ⟨"x", []⟩, public := "PUB",
    meta := { fields := [], file := "f1", module := "m1", line := 1,
              level := Level.ERROR, category := "C1",
              has_logged := true } }

/-- A second sample container sharing only its public value with
`sampleA`. -/
def sampleB : DetailedError String String :=
  { private_ := ⟨"y", ["z"]⟩, public := "PUB",
    meta := { fields := [("k", "v")], file := "f2", module := "m2",
              line := 2, level := Level.TRACE, category := "C2",
              has_logged := false } }

theorem log_fst (dbgPub : Pub → String) (dispCat : Cat → String)
    (e : DetailedError Pub Cat) :
    (e.log dbgPub dispCat).1 =
      { e with meta := { e.meta with has_logged := true } } := by
  obtain ⟨priv, pub, f, fl, mo, ln, lv, cat, hl⟩ := e
  cases hl <;> simp [DetailedError.log]

theorem log_snd_length (dbgPub : Pub → String) (dispCat : Cat → String)
    (e : DetailedError Pub Cat) :
    (e.log dbgPub dispCat).2.length = if e.meta.has_logged then 0 else 1 := by
  obtain ⟨priv, pub, f, fl, mo, ln, lv, cat, hl⟩ := e
  cases hl <;> simp [DetailedError.log]

theorem log_snd_of_not_logged (dbgPub : Pub → String)
    (dispCat : Cat → String) (e : DetailedError Pub Cat)
    (h : e.meta.has_logged = false) :
    (e.log dbgPub dispCat).2 =
      [{ level := e.meta.level, errors := e.private_.chain.drop 1,
         public_error := dbgPub e.public,
         category := dispCat e.meta.category,
         additional_context :=
           if e.meta.fields.isEmpty then none else some e.meta.fields,
         file := e.meta.file, line := (e.meta.line : Int),
         module := e.meta.module, message := e.private_.display }] := by
  obtain ⟨priv, pub, f, fl, mo, ln, lv, cat, hl⟩ := e
  simp only at h
  subst h
  cases lv <;> cases f <;> rfl

theorem log_of_logged (dbgPub : Pub → String) (dispCat : Cat → String)
    (e : DetailedError Pub Cat) (h : e.meta.has_logged = true) :
    e.log dbgPub dispCat = (e, []) := by
  simp [DetailedError.log, h]

theorem new_with_tracing_eq (dbgPub : Pub → String) (dispCat : Cat → String)
    (priv_err : String) (public : Pub) (context : Option String)
    (category : Cat) (level : Level) (file : String) (line : Nat)
    (module : String) (fields : List (String × String)) :
    DetailedError.new_with_tracing dbgPub dispCat priv_err public context
        category level file line module fields =
      ({ private_ := wrapChain priv_err context, public := public,
         meta := { fields := fields, file := file, module := module,
                   line := line, level := level, category := category,
                   has_logged := true } },
       [{ level := level,
          errors := (wrapChain priv_err context).chain.drop 1,
          public_error := dbgPub public, category := dispCat category,
          additional_context :=
            if fields.isEmpty then none else some fields,
          file := file, line := (line : Int), module := module,
          message := (wrapChain priv_err context).display }]) := by
  cases context <;> cases level <;> cases fields <;> rfl

/-- C1: for every call to `new` or `new_with_tracing` (any private error,
public error, optional context, category, severity level, file, line, module
and fields), the returned container has `has_logged = true` and exactly one
structured diagnostic record was emitted during construction — the emission
is part of the constructor's own evaluation, so it happens before the
constructor returns. -/
theorem C1_construction_logs_once (dbgPub : Pub → String)
    (dispCat : Cat → String) (priv_err : String) (public : Pub)
    (context : Option String) (category : Cat) (level : Level)
    (file : String) (line : Nat) (module : String)
    (fields : List (String × String)) :
    ((DetailedError.new_with_tracing dbgPub dispCat priv_err public context
        category level file line module fields).1.meta.has_logged = true ∧
     (DetailedError.new_with_tracing dbgPub dispCat priv_err public context
        category level file line module fields).2.length = 1) ∧
    ((DetailedError.new dbgPub dispCat priv_err public context category
        level file line module).1.meta.has_logged = true ∧
     (DetailedError.new dbgPub dispCat priv_err public context category
        level file line module).2.length = 1) := by
  simp [DetailedError.new, new_with_tracing_eq]

/-- C2: `log()` is idempotent. The returned container always equals the
input with only `has_logged` set to `true` (so when `has_logged` already
holds, nothing changes at all); the number of emitted records is `0` when
`has_logged` was already set and `1` otherwise; and a second `log()` call on
the result is a no-op emitting nothing, so repeated calls emit at most one
record in total. -/
theorem C2_log_idempotent (dbgPub : Pub → String) (dispCat : Cat → String)
    (e : DetailedError Pub Cat) :
    (e.log dbgPub dispCat).1 =
        { e with meta := { e.meta with has_logged := true } } ∧
    (e.log dbgPub dispCat).2.length =
        (if e.meta.has_logged then 0 else 1) ∧
    (e.log dbgPub dispCat).1.log dbgPub dispCat =
        ((e.log dbgPub dispCat).1, []) := by
  refine ⟨log_fst dbgPub dispCat e, log_snd_length dbgPub dispCat e, ?_⟩
  exact log_of_logged dbgPub dispCat ((e.log dbgPub dispCat).1)
    (by rw [log_fst])

/-- C3 counterexample: construct with a private error displaying `"a"` and a
context also displaying `"a"`. The sole emitted record has primary message
`"a"` and `errors = ["a"]`: the outermost cause's display string does appear
in `errors` (contributed by the inner cause), refuting the claim's
"does not appear in `errors`" conjunct. -/
theorem C3_counterexample :
    ((DetailedError.new_with_tracing (fun s : String => s)
        (fun s : String => s) "a" "PUB" (some "a") "CAT" Level.ERROR
        "f" 1 "m" []).2.map (fun r => (r.message, r.errors)))
      = [("a", ["a"])] ∧ ("a" : String) ∈ ["a"] := by
  exact ⟨rfl, by simp⟩

/-- C3 amended: for every emitted diagnostic record, `errors` equals the
display strings of every cause in the chain except the first, in
outer-to-inner order, and the first (outermost) cause's display string is
the record's primary message and contributes no entry of its own to `errors`
(though its string may still occur there when an inner cause displays
identically). -/
theorem C3_errors_skip_first_cause (dbgPub : Pub → String)
    (dispCat : Cat → String) (e : DetailedError Pub Cat) :
    ∀ r ∈ (e.log dbgPub dispCat).2,
      r.errors = e.private_.chain.drop 1 ∧
      r.message = e.private_.display := by
  intro r hr
  cases h : e.meta.has_logged with
  | true =>
    simp [DetailedError.log, h] at hr
  | false =>
    rw [log_snd_of_not_logged dbgPub dispCat e h] at hr
    simp only [List.mem_singleton] at hr
    subst hr
    exact ⟨rfl, rfl⟩

/-- Witness for C3 amended at a concrete container and record. -/
theorem C3_errors_skip_first_cause_witness :
    (({ level := Level.WARN, errors := ["p"], public_error := "PUB",
        category := "CAT", additional_context := none, file := "f",
        line := (3 : Int), module := "m",
        message := "c" } : LogRecord).errors =
          sampleErr.private_.chain.drop 1 ∧
     ({ level := Level.WARN, errors := ["p"], public_error := "PUB",
        category := "CAT", additional_context := none, file := "f",
        line := (3 : Int), module := "m",
        message := "c" } : LogRecord).message =
          sampleErr.private_.display) :=
  C3_errors_skip_first_cause (fun s => s) (fun s => s) sampleErr
    { level := Level.WARN, errors := ["p"], public_error := "PUB",
      category := "CAT", additional_context := none, file := "f",
      line := (3 : Int), module := "m", message := "c" }
    (by decide)

/-- C4: for every construction, the emitted record carries an
`additional_context` attribute exactly when the `fields` mapping is
non-empty, and when present it equals the full `fields` mapping; the level
is universally quantified, so this holds uniformly at all five severity
levels. -/
theorem C4_additional_context_iff_fields (dbgPub : Pub → String)
    (dispCat : Cat → String) (priv_err : String) (public : Pub)
    (context : Option String) (category : Cat) (level : Level)
    (file : String) (line : Nat) (module : String)
    (fields : List (String × String)) :
    ∀ r ∈ (DetailedError.new_with_tracing dbgPub dispCat priv_err public
        context category level file line module fields).2,
      r.additional_context = (if fields.isEmpty then none else some fields) ∧
      (r.additional_context = some fields ↔ fields ≠ []) := by
  rw [new_with_tracing_eq]
  intro r hr
  simp only [List.mem_singleton] at hr
  subst hr
  cases fields <;> simp

/-- Witness for C4 at a concrete construction with the spec's scenario
fields `{"user_id": "42"}` (non-empty, so the attribute is present and
equals the mapping). -/
theorem C4_additional_context_iff_fields_witness :
    (({ level := Level.INFO, errors := [], public_error := "PUB",
        category := "CAT",
        additional_context := some [("user_id", "42")], file := "f",
        line := (2 : Int), module := "m",
        message := "p" } : LogRecord).additional_context =
        (if ([("user_id", "42")] : List (String × String)).isEmpty then
          none else some [("user_id", "42")]) ∧
     (({ level := Level.INFO, errors := [], public_error := "PUB",
         category := "CAT",
         additional_context := some [("user_id", "42")], file := "f",
         line := (2 : Int), module := "m",
         message := "p" } : LogRecord).additional_context =
           some [("user_id", "42")] ↔
       ([("user_id", "42")] : List (String × String)) ≠ [])) :=
  C4_additional_context_iff_fields (fun s : String => s)
    (fun s : String => s) "p" "PUB" none "CAT" Level.INFO "f" 2 "m"
    [("user_id", "42")]
    { level := Level.INFO, errors := [], public_error := "PUB",
      category := "CAT", additional_context := some [("user_id", "42")],
      file := "f", line := (2 : Int), module := "m", message := "p" }
    (by decide)

/-- C5: when a context is supplied it becomes the newly outermost entry of
the cause chain, so the emitted record's primary message is the context's
display string and `errors` contains the original private error's display
string as its sole entry (the supplied private error being a single cause);
with no context the chain contains only the private error's causes. -/
theorem C5_context_becomes_outermost (dbgPub : Pub → String)
    (dispCat : Cat → String) (priv_err : String) (public : Pub)
    (ctx : String) (category : Cat) (level : Level) (file : String)
    (line : Nat) (module : String) (fields : List (String × String)) :
    ((DetailedError.new_with_tracing dbgPub dispCat priv_err public
        (some ctx) category level file line module
        fields).1.private_.chain = [ctx, priv_err]) ∧
    ((DetailedError.new_with_tracing dbgPub dispCat priv_err public
        (some ctx) category level file line module fields).2.map
        LogRecord.message = [ctx]) ∧
    ((DetailedError.new_with_tracing dbgPub dispCat priv_err public
        (some ctx) category level file line module fields).2.map
        LogRecord.errors = [[priv_err]]) ∧
    ((DetailedError.new_with_tracing dbgPub dispCat priv_err public none
        category level file line module fields).1.private_.chain =
      [priv_err]) := by
  simp [new_with_tracing_eq, wrapChain, InnerError.new, InnerError.context,
    InnerError.chain, InnerError.display]

/-- C6 counterexample: on the identical argument list
`("p", "PUB", "A", "B", …)` the four-argument forms of `e!` and `w!` build
containers that differ in more than the severity level: `e!` makes `"A"` the
category and `"B"` the context (outermost cause), while `w!` makes `"A"` the
context and `"B"` the category — so the two macros do not bind their third
and fourth arguments to the same constructor parameters. -/
theorem C6_counterexample :
    ((e_short4 (fun s : String => s) (fun s : String => s) "p" "PUB" "A"
        "B" "f" 1 "m").1.private_ ≠
      (w_short4 (fun s : String => s) (fun s : String => s) "p" "PUB" "A"
        "B" "f" 1 "m").1.private_) ∧
    ((e_short4 (fun s : String => s) (fun s : String => s) "p" "PUB" "A"
        "B" "f" 1 "m").1.private_.chain = ["B", "p"]) ∧
    ((w_short4 (fun s : String => s) (fun s : String => s) "p" "PUB" "A"
        "B" "f" 1 "m").1.private_.chain = ["A", "p"]) ∧
    ((e_short4 (fun s : String => s) (fun s : String => s) "p" "PUB" "A"
        "B" "f" 1 "m").1.meta.category = "A") ∧
    ((w_short4 (fun s : String => s) (fun s : String => s) "p" "PUB" "A"
        "B" "f" 1 "m").1.meta.category = "B") := by
  refine ⟨?_, rfl, rfl, rfl, rfl⟩
  decide

/-- C6 amended: the three-argument forms of `e!` and `w!` accept the same
argument shape (third argument = category, no context) and on identical
argument lists build identical containers and records except for the
severity level (ERROR versus WARN); the four-argument forms route their
third and fourth arguments in opposite orders — `e!` binds (3rd → category,
4th → context) while `w!` binds (3rd → context, 4th → category) — so they
agree up to severity exactly when those two arguments are swapped. -/
theorem C6_short_form_routing (dbgPub : Pub → String) (dispCat : Cat → String)
    (p : String) (pub : Pub) (cat : Cat) (ctx : String) (file : String)
    (line : Nat) (module : String) :
    (containerSansLevel (e_short3 dbgPub dispCat p pub cat file line
        module).1 =
      containerSansLevel (w_short3 dbgPub dispCat p pub cat file line
        module).1 ∧
     (e_short3 dbgPub dispCat p pub cat file line module).1.meta.level =
        Level.ERROR ∧
     (w_short3 dbgPub dispCat p pub cat file line module).1.meta.level =
        Level.WARN ∧
     (e_short3 dbgPub dispCat p pub cat file line module).2.map
        recordSansLevel =
      (w_short3 dbgPub dispCat p pub cat file line module).2.map
        recordSansLevel ∧
     (e_short3 dbgPub dispCat p pub cat file line module).2.map
        LogRecord.level = [Level.ERROR] ∧
     (w_short3 dbgPub dispCat p pub cat file line module).2.map
        LogRecord.level = [Level.WARN]) ∧
    (containerSansLevel (e_short4 dbgPub dispCat p pub cat ctx file line
        module).1 =
      containerSansLevel (w_short4 dbgPub dispCat p pub ctx cat file line
        module).1 ∧
     (e_short4 dbgPub dispCat p pub cat ctx file line
        module).1.meta.level = Level.ERROR ∧
     (w_short4 dbgPub dispCat p pub ctx cat file line
        module).1.meta.level = Level.WARN ∧
     (e_short4 dbgPub dispCat p pub cat ctx file line module).2.map
        recordSansLevel =
      (w_short4 dbgPub dispCat p pub ctx cat file line module).2.map
        recordSansLevel) := by
  simp [e_short3, w_short3, e_short4, w_short4, detailed_error_noctx,
    detailed_error_ctx, DetailedError.new, new_with_tracing_eq,
    containerSansLevel, recordSansLevel]

/-- C7 counterexample: construct with private error `"file not found"` and
context `"failed to read my amazing file"`. The container's Display form
renders the context (the outermost cause), while the deepest cause of the
chain is `"file not found"` — so the Display form does not render the
deepest private cause's message. -/
theorem C7_counterexample :
    ((DetailedError.new_with_tracing (fun s : String => s)
        (fun s : String => s) "file not found" "PUB"
        (some "failed to read my amazing file") "CAT" Level.ERROR "f" 1
        "m" []).1.displayStr = "failed to read my amazing file") ∧
    ((DetailedError.new_with_tracing (fun s : String => s)
        (fun s : String => s) "file not found" "PUB"
        (some "failed to read my amazing file") "CAT" Level.ERROR "f" 1
        "m" []).1.private_.root_cause = "file not found") ∧
    ("failed to read my amazing file" ≠ ("file not found" : String)) := by
  refine ⟨rfl, rfl, ?_⟩
  decide

/-- C7 amended: the container's Display form renders the outermost (first)
cause's display string — the context when one was supplied, otherwise the
originally supplied private error's display string — and its Debug form
renders the category label, depending only on the category and exposing
nothing of the private chain's contents. -/
theorem C7_display_outermost_debug_category (dbgPub : Pub → String)
    (dispCat : Cat → String) (priv_err : String) (public : Pub)
    (ctx : String) (category : Cat) (level : Level) (file : String)
    (line : Nat) (module : String) (fields : List (String × String))
    (e e' : DetailedError Pub Cat)
    (h : e.meta.category = e'.meta.category) :
    ((DetailedError.new_with_tracing dbgPub dispCat priv_err public
        (some ctx) category level file line module fields).1.displayStr =
      ctx) ∧
    ((DetailedError.new_with_tracing dbgPub dispCat priv_err public none
        category level file line module fields).1.displayStr =
      priv_err) ∧
    (e.displayStr = e.private_.chain.headI) ∧
    (DetailedError.debugStr dispCat e = dispCat e.meta.category) ∧
    (DetailedError.debugStr dispCat e =
      DetailedError.debugStr dispCat e') := by
  refine ⟨?_, ?_, ?_, rfl, ?_⟩
  · simp [new_with_tracing_eq, wrapChain, InnerError.new,
      InnerError.context, DetailedError.displayStr, InnerError.display]
  · simp [new_with_tracing_eq, wrapChain, InnerError.new,
      DetailedError.displayStr, InnerError.display]
  · rfl
  · simp [DetailedError.debugStr, h]

/-- Witness for C7 amended: concrete construction arguments and the two
sample containers `sampleErr` and a copy of it, whose categories agree. -/
theorem C7_display_outermost_debug_category_witness :
    ((DetailedError.new_with_tracing (fun s : String => s)
        (fun s : String => s) "p" "PUB" (some "c") "CAT" Level.WARN "f" 3
        "m" []).1.displayStr = "c") ∧
    ((DetailedError.new_with_tracing (fun s : String => s)
        (fun s : String => s) "p" "PUB" none "CAT" Level.WARN "f" 3 "m"
        []).1.displayStr = "p") ∧
    (sampleErr.displayStr = sampleErr.private_.chain.headI) ∧
    (DetailedError.debugStr (fun s : String => s) sampleErr =
      (fun s : String => s) sampleErr.meta.category) ∧
    (DetailedError.debugStr (fun s : String => s) sampleErr =
      DetailedError.debugStr (fun s : String => s) sampleErr) :=
  C7_display_outermost_debug_category (fun s => s) (fun s => s) "p" "PUB"
    "c" "CAT" Level.WARN "f" 3 "m" [] sampleErr sampleErr rfl

/-- C8: `into_inner` consumes the container and yields exactly its owned
cause chain and its owned public value (the metadata is discarded); for
every construction, with or without context, the yielded chain's root cause
display string equals the originally supplied private error's display
string. -/
theorem C8_into_inner_preserves_root (dbgPub : Pub → String)
    (dispCat : Cat → String) (priv_err : String) (public : Pub)
    (context : Option String) (category : Cat) (level : Level)
    (file : String) (line : Nat) (module : String)
    (fields : List (String × String)) :
    (∀ e : DetailedError Pub Cat, e.into_inner = (e.private_, e.public)) ∧
    ((DetailedError.new_with_tracing dbgPub dispCat priv_err public
        context category level file line module
        fields).1.into_inner.1.root_cause = priv_err) := by
  refine ⟨fun e => rfl, ?_⟩
  rw [new_with_tracing_eq]
  cases context <;>
    simp [DetailedError.into_inner, wrapChain, InnerError.new,
      InnerError.context, InnerError.root_cause]

/-- C9: `to_response` delegates to the public value's `ToResponse`
implementation, is deterministic (two calls on the same container are
equal), and its result depends only on the public value: two containers
agreeing on `public` — whatever their private chains, fields, file, line,
module or severity — yield equal responses. Being a pure function of the
container, it mutates nothing. -/
theorem C9_to_response_pure (toResp : Pub → R)
    (e e' : DetailedError Pub Cat) (h : e.public = e'.public) :
    (e.to_response toResp = toResp e.public) ∧
    (e.to_response toResp = e.to_response toResp) ∧
    (e.to_response toResp = e'.to_response toResp) := by
  refine ⟨rfl, rfl, ?_⟩
  simp [DetailedError.to_response, h]

/-- Witness for C9: `sampleA` and `sampleB` share only their public value
(their chains, fields, call sites, severities and categories all differ),
and their responses coincide. -/
theorem C9_to_response_pure_witness :
    (sampleA.to_response (fun s : String => s) =
      (fun s : String => s) sampleA.public) ∧
    (sampleA.to_response (fun s : String => s) =
      sampleA.to_response (fun s : String => s)) ∧
    (sampleA.to_response (fun s : String => s) =
      sampleB.to_response (fun s : String => s)) :=
  C9_to_response_pure (fun s => s) sampleA sampleB rfl

/-- C10: every emitted record — at every severity level, with or without
fields — carries a `category` attribute equal to the display form of the
container's category value (and is emitted at the construction's level). -/
theorem C10_record_carries_category (dbgPub : Pub → String)
    (dispCat : Cat → String) (priv_err : String) (public : Pub)
    (context : Option String) (category : Cat) (level : Level)
    (file : String) (line : Nat) (module : String)
    (fields : List (String × String)) :
    ∀ r ∈ (DetailedError.new_with_tracing dbgPub dispCat priv_err public
        context category level file line module fields).2,
      r.category = dispCat category ∧ r.level = level := by
  rw [new_with_tracing_eq]
  intro r hr
  simp only [List.mem_singleton] at hr
  subst hr
  exact ⟨rfl, rfl⟩

/-- Witness for C10 at a concrete construction. -/
theorem C10_record_carries_category_witness :
    (({ level := Level.DEBUG, errors := [], public_error := "PUB",
        category := "CAT", additional_context := none, file := "f",
        line := (7 : Int), module := "m",
        message := "p" } : LogRecord).category =
      (fun s : String => s) "CAT") ∧
    (({ level := Level.DEBUG, errors := [], public_error := "PUB",
        category := "CAT", additional_context := none, file := "f",
        line := (7 : Int), module := "m",
        message := "p" } : LogRecord).level = Level.DEBUG) :=
  C10_record_carries_category (fun s : String => s) (fun s : String => s)
    "p" "PUB" none "CAT" Level.DEBUG "f" 7 "m" []
    { level := Level.DEBUG, errors := [], public_error := "PUB",
      category := "CAT", additional_context := none, file := "f",
      line := (7 : Int), module := "m", message := "p" }
    (by decide)

end ApiError
